import Mathlib

/-!
Shallow embedding of the elog logging facility (include/elog/elog.h and
src/elog.c) and proofs about its admission, gating and formatting behaviour.

Modelling conventions:
* Build-time configuration (`ELOG_COMPILED_LEVEL` and the three feature
  flags) is an `ElogConfig` record; every macro takes it as a parameter.
* The run-time level variable `elog_runtime_level` (a `volatile uint8_t`)
  is the single field of `ElogState`; macro expansions take and return the
  state so that "emission never writes the threshold" is visible.
* A call-site argument expression is a value together with the list of
  side effects its evaluation would perform (`ArgExpr`); an expansion
  records which effects were actually evaluated, so that compile-time and
  run-time suppression of argument evaluation is provable.
* `printf` is modelled by `runPrintf`, which interprets an argument list
  against the conversion specifiers `%s` and `%d` of the format string and
  returns `none` on a conversion/argument type mismatch (undefined
  behaviour in C).
* The comma-separated argument list of the `printf` call inside
  `ELOG_IMPL` is modelled slot by slot (`elogImplArgSlots`), because the
  helper macro `ELOG_FILE_LINE_ARGS` expands to the empty token sequence
  when `ELOG_USE_FILE_LINE` is off, leaving an empty expression slot
  between two commas; `elogCallWellFormed` records whether every slot
  holds exactly one expression, i.e. whether the expansion is
  syntactically valid C.
-/

/-- The seven ordered severities of `elog_level_t` (elog.h lines 23-31). -/
inductive elog_level_t
  | off
  | critical
  | error
  | warn
  | info
  | debug
  | trace
deriving DecidableEq, Repr

/-- Numeric value of an `elog_level_t` enumerator (OFF = 0 ... TRACE = 6). -/
def elog_level_t.val : elog_level_t → Nat
  | .off => 0
  | .critical => 1
  | .error => 2
  | .warn => 3
  | .info => 4
  | .debug => 5
  | .trace => 6

def ELOG_LEVEL_OFF : Nat := 0
def ELOG_LEVEL_CRITICAL : Nat := 1
def ELOG_LEVEL_ERROR : Nat := 2
def ELOG_LEVEL_WARN : Nat := 3
def ELOG_LEVEL_INFO : Nat := 4
def ELOG_LEVEL_DEBUG : Nat := 5
def ELOG_LEVEL_TRACE : Nat := 6

/-- Build-time configuration: `ELOG_COMPILED_LEVEL` and the three feature
flags (elog.h lines 41-64). -/
structure ElogConfig where
  compiledLevel : Nat
  useRuntimeLevel : Bool
  useFileLine : Bool
  useColor : Bool
deriving DecidableEq, Repr

/-- The defaults of elog.h: `ELOG_COMPILED_LEVEL = ELOG_LEVEL_INFO`, all
three feature flags on. -/
def elogDefaultConfig : ElogConfig :=
  { compiledLevel := ELOG_LEVEL_INFO
    useRuntimeLevel := true
    useFileLine := true
    useColor := true }

/-- Process state: the single `volatile uint8_t elog_runtime_level`
(src/elog.c line 13). -/
structure ElogState where
  elog_runtime_level : Nat
deriving DecidableEq, Repr

/-- `volatile uint8_t elog_runtime_level = ELOG_COMPILED_LEVEL;`
(src/elog.c line 13): the threshold byte at program start, with the
`uint8_t` truncation made explicit. -/
def elogInitState (cfg : ElogConfig) : ElogState :=
  { elog_runtime_level := cfg.compiledLevel % 256 }

/-- A user write to `elog_runtime_level` (the variable is extern and
mutable; elog.h line 75). -/
def elogSetRuntimeLevel (v : Nat) : ElogState :=
  { elog_runtime_level := v % 256 }

/- ANSI colour constants, elog.h lines 82-108. -/

def ELOG_COLOR_CRITICAL : String := "\x1b[1;35m"
def ELOG_COLOR_ERROR : String := "\x1b[1;31m"
def ELOG_COLOR_WARN : String := "\x1b[1;33m"
def ELOG_COLOR_INFO : String := "\x1b[1;32m"
def ELOG_COLOR_DEBUG : String := "\x1b[1;36m"
def ELOG_COLOR_TRACE : String := "\x1b[0;37m"
def ELOG_COLOR_RESET : String := "\x1b[0m"

/- Level labels, elog.h lines 115-137. -/

def ELOG_LEVEL_FMT_CRITICAL : String := "[CRITICAL]"
def ELOG_LEVEL_FMT_ERROR : String := "[ERROR]"
def ELOG_LEVEL_FMT_WARN : String := "[WARN]"
def ELOG_LEVEL_FMT_INFO : String := "[INFO]"
def ELOG_LEVEL_FMT_DEBUG : String := "[DEBUG]"
def ELOG_LEVEL_FMT_TRACE : String := "[TRACE]"

/-- `ELOG_FILE_LINE_FMT` (elog.h lines 153-161): the bracketed locator
format fragment, empty when `ELOG_USE_FILE_LINE` is off. -/
def ELOG_FILE_LINE_FMT (cfg : ElogConfig) : String :=
  if cfg.useFileLine then "[%s: %d]" else ""

/-- `ELOG_COLOR_BEGIN(color)` (elog.h lines 164-170): the colour prefix,
empty when `ELOG_USE_COLOR` is off. -/
def ELOG_COLOR_BEGIN (cfg : ElogConfig) (color : String) : String :=
  if cfg.useColor then color else ""

/-- `ELOG_COLOR_END` (elog.h lines 164-170): the colour terminator,
`ELOG_COLOR_RESET` when colour is on and empty otherwise. Note that
`ELOG_IMPL` does not use it. -/
def ELOG_COLOR_END (cfg : ElogConfig) : String :=
  if cfg.useColor then ELOG_COLOR_RESET else ""

/-- One value a C expression in the printf argument list can contribute:
a string pointer or an int. -/
inductive CArg
  | str (s : String)
  | int (n : Int)
deriving DecidableEq, Repr

/-- A call-site argument expression: the value it evaluates to and the
side effects its evaluation performs. -/
structure ArgExpr where
  value : CArg
  effects : List String
deriving DecidableEq, Repr

/-- printf-style interpretation of a format string over an argument list,
for the `%s` and `%d` conversions used by `ELOG_IMPL`. A conversion that
meets an argument of the wrong type, or no argument at all, is undefined
behaviour in C and yields `none`; surplus arguments are ignored, as in C. -/
def runPrintf : List Char → List CArg → Option String
  | [], _ => some ""
  | '%' :: 's' :: rest, CArg.str s :: args =>
      (runPrintf rest args).map (fun t => s ++ t)
  | '%' :: 's' :: _, _ => none
  | '%' :: 'd' :: rest, CArg.int n :: args =>
      (runPrintf rest args).map (fun t => toString n ++ t)
  | '%' :: 'd' :: _, _ => none
  | c :: rest, args =>
      (runPrintf rest args).map (fun t => c.toString ++ t)

/-- The complete format literal of the printf call in `ELOG_IMPL`
(elog.h line 181): `"%s%s " ELOG_FILE_LINE_FMT " " fmt "%s\n"`. -/
def elogFormatString (cfg : ElogConfig) (fmt : String) : String :=
  "%s%s " ++ ELOG_FILE_LINE_FMT cfg ++ " " ++ fmt ++ "%s\n"

/-- `ELOG_FILE_LINE_ARGS` (elog.h lines 153-161) as comma-separated
argument slots: `__FILE_NAME__, __LINE__` when `ELOG_USE_FILE_LINE` is on,
and the empty token sequence otherwise — which still occupies one slot
between the surrounding commas of the printf call, holding no expression. -/
def ELOG_FILE_LINE_ARGS (cfg : ElogConfig) (file : String) (line : Int) :
    List (List CArg) :=
  if cfg.useFileLine then [[CArg.str file], [CArg.int line]] else [[]]

/-- The comma-separated argument slots of the printf call in `ELOG_IMPL`
(elog.h lines 181-183): `ELOG_COLOR_BEGIN(color), level_str,
ELOG_FILE_LINE_ARGS, ELOG_COLOR_RESET, ##__VA_ARGS__`. The paste
`##__VA_ARGS__` removes its preceding comma when the variadic list is
empty, so the variadic part contributes exactly one slot per argument. -/
def elogImplArgSlots (cfg : ElogConfig) (color level_str file : String)
    (line : Int) (varargs : List CArg) : List (List CArg) :=
  [[CArg.str (ELOG_COLOR_BEGIN cfg color)], [CArg.str level_str]]
    ++ ELOG_FILE_LINE_ARGS cfg file line
    ++ [[CArg.str ELOG_COLOR_RESET]]
    ++ varargs.map (fun a => [a])

/-- Whether the expanded printf call is syntactically valid C: every
comma-separated slot must hold exactly one expression. An empty slot
(from an empty `ELOG_FILE_LINE_ARGS`) is a compile error. -/
def elogCallWellFormed (cfg : ElogConfig) (color level_str file : String)
    (line : Int) (varargs : List CArg) : Bool :=
  (elogImplArgSlots cfg color level_str file line varargs).all
    (fun s => s.length == 1)

/-- The text the printf call of `ELOG_IMPL` writes: the format literal
interpreted over the argument list. `none` when the expansion is not
well-formed C or when a conversion meets a wrongly-typed argument. -/
def elogPrintfCall (cfg : ElogConfig) (color level_str file : String)
    (line : Int) (fmt : String) (varargs : List CArg) : Option String :=
  if elogCallWellFormed cfg color level_str file line varargs then
    runPrintf (elogFormatString cfg fmt).toList
      ((elogImplArgSlots cfg color level_str file line varargs).flatten)
  else none

/-- The run-time admission check of `ELOG_IMPL` (elog.h line 180):
`(level) <= elog_runtime_level`. -/
def elogRuntimeAdmits (level : Nat) (st : ElogState) : Bool :=
  decide (level ≤ st.elog_runtime_level)

/-- Result of one expansion of an admission macro: the sequence of write
calls made to the output primitive (each with the text it writes, `none`
for undefined behaviour) and the side effects of the argument expressions
that were evaluated. -/
structure InvocationResult where
  writes : List (Option String)
  evaluatedEffects : List String
deriving DecidableEq, Repr

/-- The `((void)0)` expansion: no write call, no argument evaluated. -/
def noopResult : InvocationResult :=
  { writes := [], evaluatedEffects := [] }

/-- `ELOG_IMPL` (elog.h lines 176-193). With `ELOG_USE_RUNTIME_LEVEL` the
printf call sits inside `if ((level) <= elog_runtime_level)`, so a denied
expansion evaluates no argument expression; without the feature the printf
call is unconditional. The state is returned unchanged: the expansion
only reads `elog_runtime_level`. -/
def ELOG_IMPL (cfg : ElogConfig) (st : ElogState) (level : Nat)
    (level_str color : String) (file : String) (line : Int) (fmt : String)
    (args : List ArgExpr) : InvocationResult × ElogState :=
  if cfg.useRuntimeLevel then
    (if elogRuntimeAdmits level st then
      { writes := [elogPrintfCall cfg color level_str file line fmt
                    (args.map ArgExpr.value)]
        evaluatedEffects := (args.map ArgExpr.effects).flatten }
     else noopResult, st)
  else
    ({ writes := [elogPrintfCall cfg color level_str file line fmt
                    (args.map ArgExpr.value)]
       evaluatedEffects := (args.map ArgExpr.effects).flatten }, st)

/-- Common shape of the six admission macros (elog.h lines 195-247):
`#if ELOG_COMPILED_LEVEL >= ELOG_LEVEL_X` the macro expands to
`ELOG_IMPL(ELOG_LEVEL_X, ELOG_LEVEL_FMT_X, ELOG_COLOR_X, fmt, ...)`;
otherwise to `((void)0)`, which mentions none of its arguments. -/
def elogAdmissionPoint (cfg : ElogConfig) (level : Nat)
    (level_str color : String) (st : ElogState) (file : String) (line : Int)
    (fmt : String) (args : List ArgExpr) : InvocationResult × ElogState :=
  if level ≤ cfg.compiledLevel then
    ELOG_IMPL cfg st level level_str color file line fmt args
  else (noopResult, st)

/-- `ELOG_CRITICAL` (elog.h lines 196-202). -/
def ELOG_CRITICAL (cfg : ElogConfig) (st : ElogState) (file : String)
    (line : Int) (fmt : String) (args : List ArgExpr) :
    InvocationResult × ElogState :=
  elogAdmissionPoint cfg ELOG_LEVEL_CRITICAL ELOG_LEVEL_FMT_CRITICAL
    ELOG_COLOR_CRITICAL st file line fmt args

/-- `ELOG_ERROR` (elog.h lines 205-211). -/
def ELOG_ERROR (cfg : ElogConfig) (st : ElogState) (file : String)
    (line : Int) (fmt : String) (args : List ArgExpr) :
    InvocationResult × ElogState :=
  elogAdmissionPoint cfg ELOG_LEVEL_ERROR ELOG_LEVEL_FMT_ERROR
    ELOG_COLOR_ERROR st file line fmt args

/-- `ELOG_WARN`, first definition (elog.h lines 214-220). -/
def ELOG_WARN (cfg : ElogConfig) (st : ElogState) (file : String)
    (line : Int) (fmt : String) (args : List ArgExpr) :
    InvocationResult × ElogState :=
  elogAdmissionPoint cfg ELOG_LEVEL_WARN ELOG_LEVEL_FMT_WARN
    ELOG_COLOR_WARN st file line fmt args

/-- `ELOG_INFO`, first definition (elog.h lines 223-229). -/
def ELOG_INFO (cfg : ElogConfig) (st : ElogState) (file : String)
    (line : Int) (fmt : String) (args : List ArgExpr) :
    InvocationResult × ElogState :=
  elogAdmissionPoint cfg ELOG_LEVEL_INFO ELOG_LEVEL_FMT_INFO
    ELOG_COLOR_INFO st file line fmt args

/-- `ELOG_DEBUG`, first definition (elog.h lines 232-238). -/
def ELOG_DEBUG (cfg : ElogConfig) (st : ElogState) (file : String)
    (line : Int) (fmt : String) (args : List ArgExpr) :
    InvocationResult × ElogState :=
  elogAdmissionPoint cfg ELOG_LEVEL_DEBUG ELOG_LEVEL_FMT_DEBUG
    ELOG_COLOR_DEBUG st file line fmt args

/-- `ELOG_TRACE`, first definition (elog.h lines 241-247). -/
def ELOG_TRACE (cfg : ElogConfig) (st : ElogState) (file : String)
    (line : Int) (fmt : String) (args : List ArgExpr) :
    InvocationResult × ElogState :=
  elogAdmissionPoint cfg ELOG_LEVEL_TRACE ELOG_LEVEL_FMT_TRACE
    ELOG_COLOR_TRACE st file line fmt args

/-- `ELOG_WARN`, second definition (elog.h lines 250-256), transcribed
with its `#if` and `ELOG_IMPL` call spelled out as the header writes it. -/
def ELOG_WARN_redef (cfg : ElogConfig) (st : ElogState) (file : String)
    (line : Int) (fmt : String) (args : List ArgExpr) :
    InvocationResult × ElogState :=
  if ELOG_LEVEL_WARN ≤ cfg.compiledLevel then
    ELOG_IMPL cfg st ELOG_LEVEL_WARN ELOG_LEVEL_FMT_WARN ELOG_COLOR_WARN
      file line fmt args
  else (noopResult, st)

/-- `ELOG_INFO`, second definition (elog.h lines 259-265). -/
def ELOG_INFO_redef (cfg : ElogConfig) (st : ElogState) (file : String)
    (line : Int) (fmt : String) (args : List ArgExpr) :
    InvocationResult × ElogState :=
  if ELOG_LEVEL_INFO ≤ cfg.compiledLevel then
    ELOG_IMPL cfg st ELOG_LEVEL_INFO ELOG_LEVEL_FMT_INFO ELOG_COLOR_INFO
      file line fmt args
  else (noopResult, st)

/-- `ELOG_DEBUG`, second definition (elog.h lines 268-274). -/
def ELOG_DEBUG_redef (cfg : ElogConfig) (st : ElogState) (file : String)
    (line : Int) (fmt : String) (args : List ArgExpr) :
    InvocationResult × ElogState :=
  if ELOG_LEVEL_DEBUG ≤ cfg.compiledLevel then
    ELOG_IMPL cfg st ELOG_LEVEL_DEBUG ELOG_LEVEL_FMT_DEBUG ELOG_COLOR_DEBUG
      file line fmt args
  else (noopResult, st)

/-- `ELOG_TRACE`, second definition (elog.h lines 277-283). -/
def ELOG_TRACE_redef (cfg : ElogConfig) (st : ElogState) (file : String)
    (line : Int) (fmt : String) (args : List ArgExpr) :
    InvocationResult × ElogState :=
  if ELOG_LEVEL_TRACE ≤ cfg.compiledLevel then
    ELOG_IMPL cfg st ELOG_LEVEL_TRACE ELOG_LEVEL_FMT_TRACE ELOG_COLOR_TRACE
      file line fmt args
  else (noopResult, st)

/-- Configuration with `ELOG_USE_COLOR = 0`, other settings default. -/
def elogConfigNoColor : ElogConfig :=
  { elogDefaultConfig with useColor := false }

/-- Configuration with `ELOG_USE_FILE_LINE = 0`, other settings default. -/
def elogConfigNoFileLine : ElogConfig :=
  { elogDefaultConfig with useFileLine := false }

/-- Any admission macro whose severity is above the compile-time level
expands to `((void)0)`: the state is untouched and, since the expansion
mentions no argument, nothing is written and no argument effect runs. -/
theorem elogAdmissionPoint_eliminated (cfg : ElogConfig) (L : Nat)
    (level_str color : String) (st : ElogState) (file : String) (line : Int)
    (fmt : String) (args : List ArgExpr) (h : cfg.compiledLevel < L) :
    elogAdmissionPoint cfg L level_str color st file line fmt args
      = (noopResult, st) := by
  unfold elogAdmissionPoint
  rw [if_neg (by omega)]

/-- Claim C1: an admission point with severity above `ELOG_COMPILED_LEVEL`
is a no-op for every run-time state: it performs no write call and
evaluates no argument expression. -/
theorem elog_compile_time_gate_is_noop (cfg : ElogConfig) (L : Nat)
    (level_str color : String) (st : ElogState) (file : String) (line : Int)
    (fmt : String) (args : List ArgExpr) (h : cfg.compiledLevel < L) :
    (elogAdmissionPoint cfg L level_str color st file line fmt args).1.writes
        = []
    ∧ (elogAdmissionPoint cfg L level_str color st file line
        fmt args).1.evaluatedEffects = []
    ∧ (elogAdmissionPoint cfg L level_str color st file line fmt args).2
        = st := by
  rw [elogAdmissionPoint_eliminated cfg L level_str color st file line fmt
    args h]
  exact ⟨rfl, rfl, rfl⟩

theorem elog_compile_time_gate_is_noop_witness :
    (elogAdmissionPoint elogDefaultConfig ELOG_LEVEL_DEBUG
        ELOG_LEVEL_FMT_DEBUG ELOG_COLOR_DEBUG
        (elogInitState elogDefaultConfig) "main.c" 42 "x=%d"
        [⟨CArg.int 1, ["push 1"]⟩]).1.writes = []
    ∧ (elogAdmissionPoint elogDefaultConfig ELOG_LEVEL_DEBUG
        ELOG_LEVEL_FMT_DEBUG ELOG_COLOR_DEBUG
        (elogInitState elogDefaultConfig) "main.c" 42 "x=%d"
        [⟨CArg.int 1, ["push 1"]⟩]).1.evaluatedEffects = []
    ∧ (elogAdmissionPoint elogDefaultConfig ELOG_LEVEL_DEBUG
        ELOG_LEVEL_FMT_DEBUG ELOG_COLOR_DEBUG
        (elogInitState elogDefaultConfig) "main.c" 42 "x=%d"
        [⟨CArg.int 1, ["push 1"]⟩]).2 = elogInitState elogDefaultConfig :=
  elog_compile_time_gate_is_noop elogDefaultConfig ELOG_LEVEL_DEBUG
    ELOG_LEVEL_FMT_DEBUG ELOG_COLOR_DEBUG (elogInitState elogDefaultConfig)
    "main.c" 42 "x=%d" [⟨CArg.int 1, ["push 1"]⟩] (by decide)

/-- Claim C2: a retained call site at severity `L` performs exactly one
write call when the run-time threshold `t` satisfies `t ≥ L`, and none
when `t < L`. -/
theorem elog_runtime_gate_write_count (cfg : ElogConfig) (L t : Nat)
    (level_str color : String) (file : String) (line : Int) (fmt : String)
    (args : List ArgExpr) (hrt : cfg.useRuntimeLevel = true)
    (hret : L ≤ cfg.compiledLevel) :
    (L ≤ t →
      ((elogAdmissionPoint cfg L level_str color ⟨t⟩ file line fmt
        args).1.writes).length = 1)
    ∧ (t < L →
      (elogAdmissionPoint cfg L level_str color ⟨t⟩ file line fmt
        args).1.writes = []) := by
  unfold elogAdmissionPoint ELOG_IMPL elogRuntimeAdmits
  rw [if_pos hret, hrt]
  constructor
  · intro hLt
    simp [hLt]
  · intro hLt
    have h : ¬(L ≤ (ElogState.mk t).elog_runtime_level) := by
      simp only [ElogState.mk.injEq]
      omega
    simp [h, noopResult]

theorem elog_runtime_gate_write_count_witness :
    ((4 : Nat) ≤ 4 →
      ((elogAdmissionPoint elogDefaultConfig 4 ELOG_LEVEL_FMT_INFO
        ELOG_COLOR_INFO ⟨4⟩ "main.c" 1 "x" []).1.writes).length = 1)
    ∧ ((4 : Nat) < 4 →
      (elogAdmissionPoint elogDefaultConfig 4 ELOG_LEVEL_FMT_INFO
        ELOG_COLOR_INFO ⟨4⟩ "main.c" 1 "x" []).1.writes = []) :=
  elog_runtime_gate_write_count elogDefaultConfig 4 4 ELOG_LEVEL_FMT_INFO
    ELOG_COLOR_INFO "main.c" 1 "x" [] rfl (by decide)

/-- Claim C3 (refuted): under the default configuration,
`ELOG_INFO("hello %d", 7)` at main.c line 42 does not produce the line
`\x1b[1;32m[INFO] [main.c: 42] hello 7\x1b[0m\n`. The argument list of the
printf call passes `ELOG_COLOR_RESET` before the variadic arguments while
the format literal places the user format before the trailing `%s`, so the
`%d` of `"hello %d"` meets the reset string and the trailing `%s` meets
the integer 7: a conversion/argument type mismatch, i.e. undefined
behaviour, modelled as a write of `none`. -/
theorem elog_info_hello7_arg_misalignment :
    (ELOG_INFO elogDefaultConfig (elogInitState elogDefaultConfig) "main.c"
        42 "hello %d" [⟨CArg.int 7, []⟩]).1.writes = [none]
    ∧ (ELOG_INFO elogDefaultConfig (elogInitState elogDefaultConfig)
        "main.c" 42 "hello %d" [⟨CArg.int 7, []⟩]).1.writes
      ≠ [some "\x1b[1;32m[INFO] [main.c: 42] hello 7\x1b[0m\n"] := by
  constructor
  · decide
  · decide

/-- Claim C4 (refuted): with `ELOG_USE_COLOR = 0`, `ELOG_WARN("bad")` at
main.c line 10 still ends its line with the reset escape, because
`ELOG_IMPL` passes `ELOG_COLOR_RESET` — which is defined unconditionally —
instead of the flag-gated `ELOG_COLOR_END`, whose value under this
configuration is the empty string. -/
theorem elog_nocolor_warn_reset_leak :
    (ELOG_WARN elogConfigNoColor (elogInitState elogConfigNoColor) "main.c"
        10 "bad" []).1.writes = [some "[WARN] [main.c: 10] bad\x1b[0m\n"]
    ∧ (ELOG_WARN elogConfigNoColor (elogInitState elogConfigNoColor)
        "main.c" 10 "bad" []).1.writes ≠ [some "[WARN] [main.c: 10] bad\n"]
    ∧ ELOG_COLOR_END elogConfigNoColor = "" := by
  refine ⟨by decide, by decide, by decide⟩

/-- Claim C5: the run-time threshold byte starts at `ELOG_COMPILED_LEVEL`
(INFO under the defaults), fits in one byte, and no admission-macro
expansion ever changes it. -/
theorem elog_runtime_level_lifecycle (cfg : ElogConfig) (L : Nat)
    (level_str color : String) (st : ElogState) (file : String) (line : Int)
    (fmt : String) (args : List ArgExpr)
    (h : cfg.compiledLevel ≤ ELOG_LEVEL_TRACE) :
    (elogInitState cfg).elog_runtime_level = cfg.compiledLevel
    ∧ (elogInitState elogDefaultConfig).elog_runtime_level = ELOG_LEVEL_INFO
    ∧ (elogInitState cfg).elog_runtime_level < 256
    ∧ (elogAdmissionPoint cfg L level_str color st file line fmt args).2
        = st := by
  unfold ELOG_LEVEL_TRACE at h
  refine ⟨?_, by decide, ?_, ?_⟩
  · unfold elogInitState
    simp only
    omega
  · unfold elogInitState
    simp only
    omega
  · unfold elogAdmissionPoint ELOG_IMPL
    split
    · split <;> rfl
    · rfl

theorem elog_runtime_level_lifecycle_witness :
    (elogInitState elogDefaultConfig).elog_runtime_level
        = elogDefaultConfig.compiledLevel
    ∧ (elogInitState elogDefaultConfig).elog_runtime_level = ELOG_LEVEL_INFO
    ∧ (elogInitState elogDefaultConfig).elog_runtime_level < 256
    ∧ (elogAdmissionPoint elogDefaultConfig 4 ELOG_LEVEL_FMT_INFO
        ELOG_COLOR_INFO ⟨4⟩ "main.c" 1 "m" []).2 = (⟨4⟩ : ElogState) :=
  elog_runtime_level_lifecycle elogDefaultConfig 4 ELOG_LEVEL_FMT_INFO
    ELOG_COLOR_INFO ⟨4⟩ "main.c" 1 "m" [] (by decide)

/-- An admission point at a positive severity writes nothing when the
run-time threshold byte holds `ELOG_LEVEL_OFF`, whatever the compile-time
level. -/
theorem elogAdmissionPoint_off_silent (cfg : ElogConfig) (L : Nat)
    (level_str color : String) (file : String) (line : Int) (fmt : String)
    (args : List ArgExpr) (hrt : cfg.useRuntimeLevel = true) (hL : 1 ≤ L) :
    (elogAdmissionPoint cfg L level_str color ⟨ELOG_LEVEL_OFF⟩ file line fmt
      args).1.writes = [] := by
  unfold elogAdmissionPoint ELOG_IMPL elogRuntimeAdmits
  rw [hrt]
  have h : ¬(L ≤ (ElogState.mk ELOG_LEVEL_OFF).elog_runtime_level) := by
    simp only
    unfold ELOG_LEVEL_OFF
    omega
  split
  · simp [h, noopResult]
  · simp [noopResult]

/-- Claim C6: while the run-time threshold holds `OFF`, none of the six
admission points writes anything, for every compile-time configuration
with the run-time-level feature on. -/
theorem elog_off_threshold_silences_all_points (cfg : ElogConfig)
    (file : String) (line : Int) (fmt : String) (args : List ArgExpr)
    (hrt : cfg.useRuntimeLevel = true) :
    (ELOG_CRITICAL cfg ⟨ELOG_LEVEL_OFF⟩ file line fmt args).1.writes = []
    ∧ (ELOG_ERROR cfg ⟨ELOG_LEVEL_OFF⟩ file line fmt args).1.writes = []
    ∧ (ELOG_WARN cfg ⟨ELOG_LEVEL_OFF⟩ file line fmt args).1.writes = []
    ∧ (ELOG_INFO cfg ⟨ELOG_LEVEL_OFF⟩ file line fmt args).1.writes = []
    ∧ (ELOG_DEBUG cfg ⟨ELOG_LEVEL_OFF⟩ file line fmt args).1.writes = []
    ∧ (ELOG_TRACE cfg ⟨ELOG_LEVEL_OFF⟩ file line fmt args).1.writes = [] :=
  ⟨elogAdmissionPoint_off_silent cfg ELOG_LEVEL_CRITICAL
      ELOG_LEVEL_FMT_CRITICAL ELOG_COLOR_CRITICAL file line fmt args hrt
      (by decide),
    elogAdmissionPoint_off_silent cfg ELOG_LEVEL_ERROR ELOG_LEVEL_FMT_ERROR
      ELOG_COLOR_ERROR file line fmt args hrt (by decide),
    elogAdmissionPoint_off_silent cfg ELOG_LEVEL_WARN ELOG_LEVEL_FMT_WARN
      ELOG_COLOR_WARN file line fmt args hrt (by decide),
    elogAdmissionPoint_off_silent cfg ELOG_LEVEL_INFO ELOG_LEVEL_FMT_INFO
      ELOG_COLOR_INFO file line fmt args hrt (by decide),
    elogAdmissionPoint_off_silent cfg ELOG_LEVEL_DEBUG ELOG_LEVEL_FMT_DEBUG
      ELOG_COLOR_DEBUG file line fmt args hrt (by decide),
    elogAdmissionPoint_off_silent cfg ELOG_LEVEL_TRACE ELOG_LEVEL_FMT_TRACE
      ELOG_COLOR_TRACE file line fmt args hrt (by decide)⟩

theorem elog_off_threshold_silences_all_points_witness :
    (ELOG_CRITICAL elogDefaultConfig ⟨ELOG_LEVEL_OFF⟩ "main.c" 1 "m"
        []).1.writes = []
    ∧ (ELOG_ERROR elogDefaultConfig ⟨ELOG_LEVEL_OFF⟩ "main.c" 1 "m"
        []).1.writes = []
    ∧ (ELOG_WARN elogDefaultConfig ⟨ELOG_LEVEL_OFF⟩ "main.c" 1 "m"
        []).1.writes = []
    ∧ (ELOG_INFO elogDefaultConfig ⟨ELOG_LEVEL_OFF⟩ "main.c" 1 "m"
        []).1.writes = []
    ∧ (ELOG_DEBUG elogDefaultConfig ⟨ELOG_LEVEL_OFF⟩ "main.c" 1 "m"
        []).1.writes = []
    ∧ (ELOG_TRACE elogDefaultConfig ⟨ELOG_LEVEL_OFF⟩ "main.c" 1 "m"
        []).1.writes = [] :=
  elog_off_threshold_silences_all_points elogDefaultConfig "main.c" 1 "m" []
    rfl

/-- Claim C7: the run-time admission check is monotone in the threshold,
and the threshold `ELOG_LEVEL_TRACE` admits (one write call) every call
site that survived compile-time gating. -/
theorem elog_admission_monotone_trace_admits (cfg : ElogConfig)
    (L t t' : Nat) (level_str color : String) (file : String) (line : Int)
    (fmt : String) (args : List ArgExpr) (htt : t ≤ t')
    (hrt : cfg.useRuntimeLevel = true) (hret : L ≤ cfg.compiledLevel)
    (hcl : cfg.compiledLevel ≤ ELOG_LEVEL_TRACE) :
    (elogRuntimeAdmits L ⟨t⟩ = true → elogRuntimeAdmits L ⟨t'⟩ = true)
    ∧ ((elogAdmissionPoint cfg L level_str color ⟨ELOG_LEVEL_TRACE⟩ file
        line fmt args).1.writes).length = 1 := by
  unfold ELOG_LEVEL_TRACE at *
  constructor
  · intro hadm
    unfold elogRuntimeAdmits at *
    simp only [decide_eq_true_eq] at hadm ⊢
    omega
  · unfold elogAdmissionPoint ELOG_IMPL elogRuntimeAdmits
    rw [if_pos hret, hrt]
    have hadm : L ≤ (ElogState.mk 6).elog_runtime_level := by
      simp only
      omega
    simp [hadm]

theorem elog_admission_monotone_trace_admits_witness :
    (elogRuntimeAdmits 3 ⟨3⟩ = true → elogRuntimeAdmits 3 ⟨5⟩ = true)
    ∧ ((elogAdmissionPoint elogDefaultConfig 3 ELOG_LEVEL_FMT_WARN
        ELOG_COLOR_WARN ⟨ELOG_LEVEL_TRACE⟩ "main.c" 1 "m"
        []).1.writes).length = 1 :=
  elog_admission_monotone_trace_admits elogDefaultConfig 3 3 5
    ELOG_LEVEL_FMT_WARN ELOG_COLOR_WARN "main.c" 1 "m" [] (by decide) rfl
    (by decide) (by decide)

/-- Claim C8 (refuted as stated): with `ELOG_USE_FILE_LINE = 0` the
expansion of a retained admission macro is not valid C — the empty
`ELOG_FILE_LINE_ARGS` leaves an empty expression slot between two commas
of the printf argument list — so no build exists that could emit the
line. The joined argument list (what the call would mean were the empty
slot simply dropped) does produce exactly the line the claim states. -/
theorem elog_nofileline_expansion_ill_formed :
    elogCallWellFormed elogConfigNoFileLine ELOG_COLOR_ERROR
        ELOG_LEVEL_FMT_ERROR "main.c" 10 [] = false
    ∧ (ELOG_ERROR elogConfigNoFileLine (elogInitState elogConfigNoFileLine)
        "main.c" 10 "e" []).1.writes = [none]
    ∧ runPrintf (elogFormatString elogConfigNoFileLine "e").toList
        ((elogImplArgSlots elogConfigNoFileLine ELOG_COLOR_ERROR
          ELOG_LEVEL_FMT_ERROR "main.c" 10 []).flatten)
      = some "\x1b[1;31m[ERROR]  e\x1b[0m\n" := by
  refine ⟨by decide, by decide, by decide⟩

/-- Claim C9: the second definitions of the WARN, INFO, DEBUG and TRACE
admission macros are identical to the first ones, so the interface behaves
as one with a single definition per severity. -/
theorem elog_duplicate_definitions_inert :
    ELOG_WARN_redef = ELOG_WARN
    ∧ ELOG_INFO_redef = ELOG_INFO
    ∧ ELOG_DEBUG_redef = ELOG_DEBUG
    ∧ ELOG_TRACE_redef = ELOG_TRACE :=
  ⟨rfl, rfl, rfl, rfl⟩

/-- Claim C10: a retained call site denied by the run-time gate evaluates
none of its argument expressions and has no effect at all: the expansion
equals the no-op and leaves the state unchanged. -/
theorem elog_denied_call_evaluates_nothing (cfg : ElogConfig) (L : Nat)
    (level_str color : String) (st : ElogState) (file : String) (line : Int)
    (fmt : String) (args : List ArgExpr) (hrt : cfg.useRuntimeLevel = true)
    (hret : L ≤ cfg.compiledLevel)
    (hdeny : st.elog_runtime_level < L) :
    elogAdmissionPoint cfg L level_str color st file line fmt args
      = (noopResult, st) := by
  unfold elogAdmissionPoint ELOG_IMPL elogRuntimeAdmits
  rw [if_pos hret, hrt]
  have h : ¬(L ≤ st.elog_runtime_level) := by omega
  simp [h]

theorem elog_denied_call_evaluates_nothing_witness :
    elogAdmissionPoint elogDefaultConfig 3 ELOG_LEVEL_FMT_WARN
        ELOG_COLOR_WARN ⟨2⟩ "main.c" 1 "w %d" [⟨CArg.int 5, ["push 5"]⟩]
      = (noopResult, (⟨2⟩ : ElogState)) :=
  elog_denied_call_evaluates_nothing elogDefaultConfig 3
    ELOG_LEVEL_FMT_WARN ELOG_COLOR_WARN ⟨2⟩ "main.c" 1 "w %d"
    [⟨CArg.int 5, ["push 5"]⟩] rfl (by decide) (by decide)
